import Mathlib

/-!
Verification of the subscription/billing state machine and the seller-advisor
matching engine of the Advisor-seller backend.

Shallow embedding conventions:
* timestamps are `Nat` (epoch milliseconds); `Date.now()` becomes an explicit
  `now : Nat` argument;
* JavaScript's calendar operation `setFullYear(getFullYear() + 1)` is kept
  abstract as a parameter `addYear : Nat → Nat`;
* optional / possibly-absent document fields become `Option`;
* MongoDB updates become pure functions on a record of the persisted state;
* case-insensitive regular expressions of the form `^escaped$` with the `i`
  flag are equality of lower-cased strings (`eqCI`); the string helpers work
  on `String.data` so that all definitions evaluate inside the kernel.

The file is organised as definitions first (the embedding of the code), then
theorems (the claims about it).
-/

namespace AdvisorSeller

/-! ## Definitions -/

/-! ### String helpers (kernel-computable) -/

/-- Lower-case an ASCII letter, mirroring `toLowerCase()` on the status and
matching strings used by the code (all of which are ASCII). -/
def lowerChar (c : Char) : Char :=
  if 65 ≤ c.toNat ∧ c.toNat ≤ 90 then Char.ofNat (c.toNat + 32) else c

/-- Lower-cased character list of a string. -/
def lowerStr (s : String) : List Char := s.data.map lowerChar

/-- Case-insensitive string equality; this is what the anchored
case-insensitive regular expressions built by `escapeRegex` in
`MatchingService` test, and what `toLowerCase()` comparisons amount to. -/
def eqCI (a b : String) : Bool := decide (lowerStr a = lowerStr b)

/-- Byte-wise lexicographic comparison of character lists, the order MongoDB
uses for ascending string sorts. -/
def charsLe : List Char → List Char → Bool
  | [], _ => true
  | _ :: _, [] => false
  | a :: as, b :: bs =>
    if a.toNat < b.toNat then true
    else if b.toNat < a.toNat then false
    else charsLe as bs

/-- Lexicographic string comparison used for the `companyName` ascending sort. -/
def strLe (a b : String) : Bool := charsLe a.data b.data

/-- Drop leading and trailing spaces, mirroring JavaScript `trim()` on the
space-separated geography strings. -/
def trimSpaces (l : List Char) : List Char :=
  ((l.dropWhile (· = ' ')).reverse.dropWhile (· = ' ')).reverse

/-- Top-level segment of a hierarchical geography: the characters before the
first `>` separator, trimmed — this is `geography.split('>')[0]?.trim()` in
`MatchingService.findMatches`. -/
def topSegment (g : String) : String :=
  ⟨trimSpaces (g.data.takeWhile (· ≠ '>'))⟩

/-! ### A sorting function

The MongoDB `.sort(criteria)` call returns the filtered documents ordered by
the sort criteria; we model it with an insertion sort parameterised by a
boolean comparator, together with the two facts every sort guarantees: the
output is a permutation of the input and it is pairwise ordered by the
comparator (given that the comparator is total and transitive). -/

/-- Insert an element into a list in front of the first element it compares
below-or-equal to. -/
def insertLe {α : Type} (le : α → α → Bool) (a : α) : List α → List α
  | [] => [a]
  | b :: l => if le a b then a :: b :: l else b :: insertLe le a l

/-- Insertion sort by a boolean comparator. -/
def sortWith {α : Type} (le : α → α → Bool) : List α → List α
  | [] => []
  | a :: l => insertLe le a (sortWith le l)

/-! ### Data model

Embeds the persisted `User` document of `src/src/users/schemas/user.schema.ts`,
restricted to the fields the subscription state machine reads and writes. -/

/-- Subscription sub-document embedded on the user. `status` is stored as a
string because the code compares it with string literals (after
`toLowerCase()` in the guard). Dates are epoch milliseconds. -/
structure Subscription where
  status : String := "none"
  currentPeriodStart : Option Nat := none
  currentPeriodEnd : Option Nat := none
  cancelAtPeriodEnd : Bool := false
  canceledAt : Option Nat := none
  lastAutoRenewAttempt : Option Nat := none
  expiryNotifiedAt : Option Nat := none
deriving DecidableEq, Repr

/-- Billing profile: the guard and the sweeper only consult
`billing?.defaultPaymentMethodId`. -/
structure Billing where
  defaultPaymentMethodId : Option String := none
deriving DecidableEq, Repr

/-- The persisted user/account document (the fields the claims touch). -/
structure User where
  role : String := "advisor"
  isPaymentVerified : Bool := false
  subscription : Option Subscription := none
  billing : Option Billing := none
  stripeCustomerId : Option String := none
  stripeSubscriptionId : Option String := none
deriving DecidableEq, Repr

/-- The chain `user.billing?.defaultPaymentMethodId` coerced to a boolean, as
in `hasPaymentMethod = !!freshUser.billing?.defaultPaymentMethodId`. -/
def hasPaymentMethod (u : User) : Bool :=
  match u.billing with
  | some b => b.defaultPaymentMethodId.isSome
  | none => false

/-- The `if (billingDetails && billingDetails.paymentMethodId)` snippet shared
by `markPaymentVerified` and `updateSubscriptionFromStripe`: store the billing
details only when present and carrying a payment-method id. -/
def applyBilling (bill : Option Billing) (v : User) : User :=
  match bill with
  | some b => if b.defaultPaymentMethodId.isSome then { v with billing := some b } else v
  | none => v

/-! ### UsersService.markPaymentVerified (src/src/advisors/advisors.module.ts)

The coverage-window policy on a successful payment. `addYear` abstracts
JavaScript's `setFullYear(getFullYear() + 1)`. -/

/-- Embeds `UsersService.markPaymentVerified`: reads the stored window,
decides whether a valid current cycle `start ≤ now < end` exists, and replaces
the subscription sub-document with a fresh active 1-year window starting at
the old end when the cycle is valid and at `now` otherwise. The optional
`stripeCustomerId` and billing arguments are stored when present, exactly as
in the source. -/
def markPaymentVerified (addYear : Nat → Nat) (now : Nat) (u : User)
    (stripeCustomerId : Option String := none)
    (billingDetails : Option Billing := none) : User :=
  let existingStart := u.subscription.bind (·.currentPeriodStart)
  let existingEnd := u.subscription.bind (·.currentPeriodEnd)
  let hasValidCurrentCycle :=
    match existingStart, existingEnd with
    | some s, some e => s ≤ now && now < e
    | _, _ => false
  let startFrom := if hasValidCurrentCycle then existingEnd.getD now else now
  let u1 : User :=
    { u with
      isPaymentVerified := true
      subscription := some
        { status := "active"
          currentPeriodStart := some startFrom
          currentPeriodEnd := some (addYear startFrom)
          cancelAtPeriodEnd := false } }
  let u2 : User :=
    match stripeCustomerId with
    | some c => { u1 with stripeCustomerId := some c }
    | none => u1
  applyBilling billingDetails u2

/-- Concrete account used to instantiate the C1 theorem: a valid ongoing
cycle `[0, 100)` observed at `now = 50`. -/
def uC1 : User :=
  { role := "advisor"
    subscription := some
      { status := "active"
        currentPeriodStart := some 0
        currentPeriodEnd := some 100 } }

/-! ### UsersService.updateSubscriptionFromStripe (src/src/advisors/advisors.module.ts) -/

/-- Partial subscription update derived from a provider subscription object
(the `details` argument of `updateSubscriptionFromStripe`). -/
structure SubscriptionUpdate where
  subscriptionId : String := ""
  status : String
  currentPeriodStart : Option Nat := none
  currentPeriodEnd : Option Nat := none
  cancelAtPeriodEnd : Option Bool := none
  couponCode : Option String := none
deriving DecidableEq, Repr

/-- Embeds `UsersService.updateSubscriptionFromStripe`: merges only the fields
present in the update into the stored subscription sub-document (starting from
an empty sub-document when the user has none), clears the `expiryNotifiedAt`
and `lastAutoRenewAttempt` bookkeeping when the new status is
`active`/`trialing`, and recomputes `isPaymentVerified` the way the source
does: start from status-is-active-or-trialing; when the status is `canceled`
and the update itself carries a `currentPeriodEnd`, override with
`periodEnd > now`. -/
def updateSubscriptionFromStripe (now : Nat) (u : User) (d : SubscriptionUpdate)
    (billingDetails : Option Billing := none) : User :=
  let sub0 := u.subscription.getD {}
  let sub1 := { sub0 with status := d.status }
  let sub2 :=
    match d.currentPeriodStart with
    | some v => { sub1 with currentPeriodStart := some v }
    | none => sub1
  let sub3 :=
    match d.currentPeriodEnd with
    | some v => { sub2 with currentPeriodEnd := some v }
    | none => sub2
  let sub4 :=
    match d.cancelAtPeriodEnd with
    | some b => { sub3 with cancelAtPeriodEnd := b }
    | none => sub3
  let sub5 :=
    if d.status = "active" || d.status = "trialing" then
      { sub4 with expiryNotifiedAt := none, lastAutoRenewAttempt := none }
    else sub4
  let verifiedByStatus := d.status = "active" || d.status = "trialing"
  let shouldBeVerified :=
    match decide (d.status = "canceled"), d.currentPeriodEnd with
    | true, some e => decide (now < e)
    | _, _ => verifiedByStatus
  let u1 : User :=
    { u with
      subscription := some sub5
      isPaymentVerified := shouldBeVerified
      stripeSubscriptionId :=
        if d.subscriptionId ≠ "" then some d.subscriptionId else u.stripeSubscriptionId }
  applyBilling billingDetails u1

/-- The merged subscription sub-document produced by
`updateSubscriptionFromStripe` (used to phrase its specification). -/
def mergedSub (u : User) (d : SubscriptionUpdate) : Subscription :=
  let sub0 := u.subscription.getD {}
  { status := d.status
    currentPeriodStart :=
      match d.currentPeriodStart with
      | some v => some v
      | none => sub0.currentPeriodStart
    currentPeriodEnd :=
      match d.currentPeriodEnd with
      | some v => some v
      | none => sub0.currentPeriodEnd
    cancelAtPeriodEnd :=
      match d.cancelAtPeriodEnd with
      | some b => b
      | none => sub0.cancelAtPeriodEnd
    canceledAt := sub0.canceledAt
    lastAutoRenewAttempt :=
      if d.status = "active" || d.status = "trialing" then none
      else sub0.lastAutoRenewAttempt
    expiryNotifiedAt :=
      if d.status = "active" || d.status = "trialing" then none
      else sub0.expiryNotifiedAt }

/-- Concrete stored account for the C3 counterexample: a subscription whose
stored `currentPeriodEnd = 100` lies in the future of `now = 0`. -/
def uC3 : User :=
  { role := "advisor"
    isPaymentVerified := true
    subscription := some
      { status := "active"
        currentPeriodStart := some 0
        currentPeriodEnd := some 100 } }

/-- Concrete update for the C3 counterexample: a `canceled` status update that
does not carry a `currentPeriodEnd`. -/
def dC3 : SubscriptionUpdate :=
  { subscriptionId := "sub_1", status := "canceled" }

/-- Concrete update used by the C3 witness: a plain activation. -/
def dC3w : SubscriptionUpdate :=
  { subscriptionId := "sub_2", status := "active" }

/-! ### UsersService.resumeSubscription (src/src/advisors/advisors.module.ts) -/

/-- Embeds `UsersService.resumeSubscription`: if the stored
`currentPeriodEnd` exists and lies strictly in the future, revert the
subscription to active, clear `cancelAtPeriodEnd`, drop `canceledAt` and
restore `isPaymentVerified`; otherwise return the user unchanged. -/
def resumeSubscription (now : Nat) (u : User) : User :=
  let sub := u.subscription.getD {}
  match sub.currentPeriodEnd with
  | some e =>
    if now < e then
      { u with
        subscription := some
          { sub with cancelAtPeriodEnd := false, status := "active", canceledAt := none }
        isPaymentVerified := true }
    else u
  | none => u

/-- Concrete canceled-but-not-expired account used by the C6 witness. -/
def uC6 : User :=
  { role := "advisor"
    isPaymentVerified := false
    subscription := some
      { status := "canceled"
        currentPeriodStart := some 0
        currentPeriodEnd := some 100
        cancelAtPeriodEnd := true
        canceledAt := some 10 } }

/-! ### SubscriptionGuard (src/unnamed/part_007)

The per-request access guard. A request carries an authenticated principal
(`RequestUser`), the guard reloads the fresh user (`fresh`), and the inline
renewal attempt is abstracted as `renewResult`: `Except.ok u'` means
`paymentService.renewSubscription` completed and the re-fetched stored user is
`u'` (`Except.ok none` when the re-fetch finds nobody), `Except.error ()`
means the renewal attempt threw. The guard returns its decision together with
the number of renewal attempts it made. -/

/-- Lower-cased form of a whole string. -/
def toLowerStr (s : String) : String := ⟨lowerStr s⟩

/-- The `(subscription?.['status'] || '').toLowerCase()` computation. -/
def subStatusLower (sub : Option Subscription) : String :=
  toLowerStr (match sub with | some s => s.status | none => "")

/-- Outcome of the guard: allow (optionally attaching a refreshed subscription
to the request context), an unauthorized error, or the structured
402 rejection. -/
inductive GuardDecision where
  | allow (attached : Option Subscription)
  | unauthorized
  | paymentRequired (statusCode : Nat) (message : String) (code : String)
      (hasPaymentMethod : Bool) (redirectTo : String)
deriving DecidableEq, Repr

/-- The authenticated request principal (`request.user`). -/
structure RequestUser where
  role : String
deriving DecidableEq, Repr

/-- Embeds `SubscriptionGuard.isSubscriptionActive`: active/trialing statuses
are valid while `currentPeriodEnd` is absent or in the future; a canceled
status is valid only while a present `currentPeriodEnd` is in the future;
everything else (including a missing subscription) is inactive. -/
def isSubscriptionActive (now : Nat) (sub : Option Subscription) : Bool :=
  match sub with
  | none => false
  | some s =>
    let status := toLowerStr s.status
    if status = "active" || status = "trialing" then
      match s.currentPeriodEnd with
      | none => true
      | some e => decide (now < e)
    else if status = "canceled" then
      match s.currentPeriodEnd with
      | some e => decide (now < e)
      | none => false
    else false

/-- Embeds `SubscriptionGuard.canActivate`: non-advisor principals pass
immediately; advisors are checked against the freshly loaded subscription;
when inactive, non-canceled, and a payment method is on file, one inline
renewal is attempted (errors swallowed) and the re-fetched state re-checked;
otherwise the structured 402 rejection is raised. -/
def subscriptionGuardCanActivate (now : Nat) (reqUser : Option RequestUser)
    (fresh : Option User) (renewResult : Except Unit (Option User)) :
    GuardDecision × Nat :=
  match reqUser with
  | none => (.unauthorized, 0)
  | some ru =>
    if ru.role ≠ "advisor" then (.allow none, 0)
    else
      match fresh with
      | none => (.unauthorized, 0)
      | some fu =>
        let sub := fu.subscription
        let hasPM := hasPaymentMethod fu
        if isSubscriptionActive now sub then (.allow sub, 0)
        else
          let message :=
            if subStatusLower sub = "canceled" then
              "Your subscription has ended. Please reactivate to continue access."
            else if hasPM then
              "Subscription expired - payment failed. Please update your payment method."
            else "Subscription expired. Please renew to continue access."
          let reject :=
            GuardDecision.paymentRequired 402 message "SUBSCRIPTION_EXPIRED" hasPM
              "/advisor-payments"
          if subStatusLower sub ≠ "canceled" && hasPM then
            match renewResult with
            | .ok (some ru') =>
              if isSubscriptionActive now ru'.subscription then (.allow ru'.subscription, 1)
              else (reject, 1)
            | .ok none => (reject, 1)
            | .error _ => (reject, 1)
          else (reject, 0)

/-- Concrete active advisor account used by the C2 witness. -/
def uC2 : User :=
  { role := "advisor"
    isPaymentVerified := true
    subscription := some
      { status := "active"
        currentPeriodStart := some 0
        currentPeriodEnd := some 100 }
    billing := some { defaultPaymentMethodId := some "pm_1" } }

/-- Concrete expired advisor account (period end 40, payment method on file)
used by the C5 witness. -/
def uC5 : User :=
  { role := "advisor"
    isPaymentVerified := true
    subscription := some
      { status := "active"
        currentPeriodStart := some 0
        currentPeriodEnd := some 40 }
    billing := some { defaultPaymentMethodId := some "pm_1" } }

/-! ### PaymentService webhook handling (src/src/payment/payment.service.ts)

The local effects of the `invoice.payment_succeeded` webhook case: a store of
the (single) affected user, the payment-history collection and the coupon
usage counters. The provider-side fetches are supplied as event data. -/

/-- A row of the payment-history collection (the fields the dedup logic
uses). -/
structure PaymentRecord where
  userId : String
  paymentId : String
  amount : Nat
deriving DecidableEq, Repr

/-- Local persistent state touched by the webhook handler. Coupons are
`(code, usedCount)` pairs. -/
structure Store where
  user : User
  history : List PaymentRecord
  coupons : List (String × Nat)
deriving DecidableEq, Repr

/-- The coupon-model `findOneAndUpdate` with an `$inc` of `usedCount` by one:
increment the first coupon with the given code, no-op when none exists. -/
def bumpCoupon : List (String × Nat) → String → List (String × Nat)
  | [], _ => []
  | (c, n) :: rest, code =>
    if c = code then (c, n + 1) :: rest else (c, n) :: bumpCoupon rest code

/-- Embeds `PaymentService.incrementCouponUsage`: nothing happens without a
code; otherwise an unconditional atomic increment of `usedCount`. -/
def incrementCouponUsage (st : Store) (code : Option String) : Store :=
  match code with
  | none => st
  | some c => { st with coupons := bumpCoupon st.coupons c }

/-- The provider invoice object (already expanded). -/
structure StripeInvoice where
  id : String
  paymentIntent : Option String := none
  amountPaid : Nat := 0
  amountDue : Nat := 0
  paid : Bool := false
deriving DecidableEq, Repr

/-- The provider subscription object (already expanded). -/
structure StripeSubscription where
  id : String
  status : String
  metadataUserId : Option String := none
  metadataCouponCode : Option String := none
  currentPeriodStart : Option Nat := none
  currentPeriodEnd : Option Nat := none
  cancelAtPeriodEnd : Bool := false
  latestInvoice : Option StripeInvoice := none
deriving DecidableEq, Repr

/-- Embeds `PaymentService.normalizeSubscriptionStatus`. -/
def normalizeSubscriptionStatus (status : Option String) : String :=
  match status with
  | none => "none"
  | some s =>
    if s = "active" || s = "trialing" || s = "past_due" || s = "incomplete" ||
        s = "incomplete_expired" || s = "unpaid" || s = "canceled" then s
    else "none"

/-- Embeds `PaymentService.recordPaymentHistoryFromSubscription`: derive the
dedup key `paymentId` as `invoice.payment_intent || paymentIntent?.id ||
invoice.id`, check for an existing row with the same `(userId, paymentId)`
(check-before-insert), and append a row only when absent. -/
def recordPaymentHistoryFromSubscription (st : Store) (userId : String)
    (sub : StripeSubscription) (paymentIntentId : Option String) : Store :=
  match sub.latestInvoice with
  | none => st
  | some inv =>
    let amount := if inv.amountPaid ≠ 0 then inv.amountPaid else inv.amountDue
    let paymentId := (inv.paymentIntent.orElse (fun _ => paymentIntentId)).getD inv.id
    if st.history.any (fun r => r.userId = userId && r.paymentId = paymentId) then st
    else
      { st with
        history := st.history ++
          [{ userId := userId, paymentId := paymentId, amount := amount }] }

/-- Embeds `PaymentService.handleStripeSubscriptionEvent` (single-user store):
without a `metadata.userId` nothing happens; otherwise the local subscription
is updated through `updateSubscriptionFromStripe` and, when the provider
status is `active`/`trialing`, a payment-history row is recorded from the
latest invoice. -/
def handleStripeSubscriptionEvent (now : Nat) (st : Store)
    (sub : StripeSubscription) : Store :=
  match sub.metadataUserId with
  | none => st
  | some uid =>
    let localStatus :=
      if sub.status = "canceled" && sub.cancelAtPeriodEnd then "canceled"
      else normalizeSubscriptionStatus (some sub.status)
    let st1 :=
      { st with
        user := updateSubscriptionFromStripe now st.user
          { subscriptionId := sub.id
            status := localStatus
            currentPeriodStart := sub.currentPeriodStart
            currentPeriodEnd := sub.currentPeriodEnd
            cancelAtPeriodEnd := some sub.cancelAtPeriodEnd } }
    let paymentIntentId := sub.latestInvoice.bind (·.paymentIntent)
    if sub.status = "active" || sub.status = "trialing" then
      recordPaymentHistoryFromSubscription st1 uid sub paymentIntentId
    else st1

/-- Embeds the `invoice.payment_succeeded` case of
`PaymentService.handleWebhook`: with a resolved `userId` and an
`invoice.subscription` (retrieved as `subscription`), it runs the
subscription event handler, records payment history (deduplicated), and then
unconditionally increments the coupon usage for
`subscription.metadata.couponCode`. -/
def handleInvoicePaymentSucceeded (now : Nat) (st : Store)
    (userId : Option String) (subscription : Option StripeSubscription) : Store :=
  match userId, subscription with
  | some uid, some sub =>
    let st1 := handleStripeSubscriptionEvent now st sub
    let st2 := recordPaymentHistoryFromSubscription st1 uid sub none
    incrementCouponUsage st2 sub.metadataCouponCode
  | _, _ => st

/-- Concrete provider subscription carried by the replayed
`invoice.payment_succeeded` event of C4. -/
def subC4 : StripeSubscription :=
  { id := "sub_9"
    status := "active"
    metadataUserId := some "u1"
    metadataCouponCode := some "SAVE10"
    currentPeriodStart := some 0
    currentPeriodEnd := some 1000
    cancelAtPeriodEnd := false
    latestInvoice := some
      { id := "in_1", paymentIntent := some "pi_1", amountPaid := 500,
        amountDue := 500, paid := true } }

/-- Concrete initial store for C4: empty history, coupon `SAVE10` unused. -/
def stC4 : Store :=
  { user := { role := "advisor" }
    history := []
    coupons := [("SAVE10", 0)] }

/-! ### PaymentRetryService (src/unnamed/part_009)

The hourly renewal sweeper. Renewal against the provider is abstracted by
`renew : User → Option User` — `some u'` is the stored user after a successful
`updatePaymentMethod` renewal, `none` means the attempt threw, in which case
the catch block marks the subscription `expired`. -/

/-- The selection query of `handleExpiredSubscriptions`: advisor role, a
stored `currentPeriodEnd` strictly before `now`, status `active` or
`past_due`, and a default payment method on file. -/
def dueForAutoRenewal (now : Nat) (u : User) : Bool :=
  u.role = "advisor" &&
  (match u.subscription with
   | some s =>
     (match s.currentPeriodEnd with
      | some e => decide (e < now)
      | none => false) &&
     (s.status = "active" || s.status = "past_due")
   | none => false) &&
  hasPaymentMethod u

/-- The failure path of `attemptRenewal`: set `subscription.status` to
`expired`, leaving every other field unchanged. -/
def setExpired (u : User) : User :=
  { u with subscription := some { u.subscription.getD {} with status := "expired" } }

/-- One run of `handleExpiredSubscriptions`: each selected user is attempted
exactly once (failures are isolated per user and mapped to `setExpired`);
unselected users are untouched. Also returns the number of renewal attempts
made in the run. -/
def sweepExpiredSubscriptions (now : Nat) (renew : User → Option User)
    (users : List User) : List User × Nat :=
  (users.map fun u =>
    if dueForAutoRenewal now u then
      match renew u with
      | some u' => u'
      | none => setExpired u
    else u,
   (users.filter (dueForAutoRenewal now)).length)

/-- Concrete overdue advisor account used by the C7 witness. -/
def uC7 : User :=
  { role := "advisor"
    isPaymentVerified := true
    subscription := some
      { status := "past_due"
        currentPeriodStart := some 0
        currentPeriodEnd := some 40 }
    billing := some { defaultPaymentMethodId := some "pm_2" } }

/-! ### MatchingService.findMatches (src/unnamed/part_014)

The deterministic filter + sort over advisor records. MongoDB regex queries
against array fields match when some element matches; the seller-side
wildcard regex for a missing industry therefore still requires at least one
element in the advisor's `industries` array, while a missing geography drops
the geography condition entirely. JavaScript truthiness makes an
empty-string seller attribute behave like a missing one. -/

/-- The advisor profile fields the matching engine reads
(src/src/advisors/schemas/advisor.schema.ts). `revenueRange` is flattened to
its two optional bounds. -/
structure Advisor where
  companyName : String := ""
  industries : List String := []
  geographies : List String := []
  revenueMin : Option Nat := none
  revenueMax : Option Nat := none
  isActive : Bool := true
  sendLeads : Bool := true
  yearsExperience : Nat := 0
  workedWithCimamplify : Bool := false
  createdAt : Nat := 0
deriving DecidableEq, Repr

/-- The seller profile fields the matching engine reads. -/
structure SellerProfile where
  industry : Option String := none
  geography : Option String := none
  annualRevenue : Nat := 0
deriving DecidableEq, Repr

/-- The industry condition: with a (truthy) seller industry, the anchored
case-insensitive regex must match some entry; otherwise the wildcard regex is
used, which matches any entry — so the array must be non-empty. -/
def industryMatches (sellerIndustry : Option String) (a : Advisor) : Bool :=
  match sellerIndustry with
  | some ind =>
    if ind = "" then a.industries.any (fun _ => true)
    else a.industries.any (fun entry => eqCI ind entry)
  | none => a.industries.any (fun _ => true)

/-- The geography variants the code builds: the full geography and its
trimmed top-level segment, dropping falsy (empty) entries; empty when the
seller has no (truthy) geography. -/
def geographyVariants (sellerGeography : Option String) : List String :=
  match sellerGeography with
  | none => []
  | some g =>
    if g = "" then []
    else if topSegment g = "" then [g] else [g, topSegment g]

/-- The geography condition: no condition at all when there are no variants;
otherwise some entry must match some variant's anchored case-insensitive
regex. -/
def geographyMatches (sellerGeography : Option String) (a : Advisor) : Bool :=
  let variants := geographyVariants sellerGeography
  if variants.isEmpty then true
  else a.geographies.any (fun entry => variants.any (fun v => eqCI v entry))

/-- The revenue-range condition: a missing bound imposes no constraint. -/
def revenueMatches (annualRevenue : Nat) (a : Advisor) : Bool :=
  (match a.revenueMin with
   | some m => decide (m ≤ annualRevenue)
   | none => true) &&
  (match a.revenueMax with
   | some M => decide (annualRevenue ≤ M)
   | none => true)

/-- The full filter of `MatchingService.findMatches`. -/
def matchesSeller (s : SellerProfile) (a : Advisor) : Bool :=
  a.isActive && a.sendLeads && industryMatches s.industry a &&
  geographyMatches s.geography a && revenueMatches s.annualRevenue a

/-- The sort criteria: primary key `workedWithCimamplify` descending; then
`yearsExperience` descending for `sortBy = years`, `companyName` ascending for
`sortBy = company`, and `createdAt` descending otherwise. -/
def advisorLe (sortBy : Option String) (a b : Advisor) : Bool :=
  if a.workedWithCimamplify = b.workedWithCimamplify then
    if sortBy = some "years" then decide (b.yearsExperience ≤ a.yearsExperience)
    else if sortBy = some "company" then strLe a.companyName b.companyName
    else decide (b.createdAt ≤ a.createdAt)
  else a.workedWithCimamplify

/-- Embeds `MatchingService.findMatches` (unpaginated): filter, then sort. -/
def findMatches (s : SellerProfile) (advisors : List Advisor)
    (sortBy : Option String := none) : List Advisor :=
  sortWith (advisorLe sortBy) (advisors.filter (matchesSeller s))

/-- Spec-side matching predicate, written from the words of claim C8 (for the
refinement comparison): a missing seller industry or geography matches any
value for that attribute. -/
def claimC8Matches (s : SellerProfile) (a : Advisor) : Bool :=
  a.isActive && a.sendLeads &&
  (match s.industry with
   | some ind => a.industries.any (fun entry => eqCI ind entry)
   | none => true) &&
  (match s.geography with
   | some g => a.geographies.any (fun entry => eqCI g entry || eqCI (topSegment g) entry)
   | none => true) &&
  revenueMatches s.annualRevenue a

/-- Spec-side order relation of claim C9: `workedWithCimamplify` descending
first, then the secondary key selected by `sortBy`. -/
def claimC9Order (sortBy : Option String) (a b : Advisor) : Prop :=
  if a.workedWithCimamplify = b.workedWithCimamplify then
    (if sortBy = some "years" then b.yearsExperience ≤ a.yearsExperience
     else if sortBy = some "company" then strLe a.companyName b.companyName = true
     else b.createdAt ≤ a.createdAt)
  else (a.workedWithCimamplify = true ∧ b.workedWithCimamplify = false)

/-- Seller with no industry on file, used by the C8 counterexample. -/
def sellerC8 : SellerProfile :=
  { industry := none, geography := some "North America", annualRevenue := 5000000 }

/-- Advisor with an empty `industries` array, used by the C8 counterexample. -/
def advisorC8 : Advisor :=
  { companyName := "Acme Advisors"
    industries := []
    geographies := ["North America"]
    isActive := true
    sendLeads := true }

/-- The seller of the spec's matching-determinism example. -/
def sellerC9 : SellerProfile :=
  { industry := some "Technology"
    geography := some "North America"
    annualRevenue := 5000000 }

/-- Advisor A of the spec's matching-determinism example. -/
def advisorA : Advisor :=
  { companyName := "A Corp"
    industries := ["Technology"]
    geographies := ["North America"]
    revenueMin := some 1000000
    revenueMax := some 10000000
    isActive := true
    sendLeads := true
    yearsExperience := 10
    workedWithCimamplify := false
    createdAt := 5 }

/-- Advisor B of the spec's matching-determinism example (platform partner). -/
def advisorB : Advisor :=
  { companyName := "B Corp"
    industries := ["Technology"]
    geographies := ["North America"]
    revenueMin := some 0
    revenueMax := some 20000000
    isActive := true
    sendLeads := true
    yearsExperience := 3
    workedWithCimamplify := true
    createdAt := 1 }

/-! ### PaymentVerifiedGuard (src/src/auth/guards/payment-verified.guard.ts) -/

/-- Outcome of the payment-verified guard. -/
inductive PaymentGuardDecision where
  | allow
  | forbidden (message : String)
deriving DecidableEq, Repr

/-- Embeds `PaymentVerifiedGuard.canActivate`: allow exactly when the request
user exists and its stored `isPaymentVerified` flag is true; otherwise throw
Forbidden. -/
def paymentVerifiedGuard (reqUser : Option User) : PaymentGuardDecision :=
  match reqUser with
  | some u =>
    if u.isPaymentVerified then .allow
    else .forbidden "Please complete payment to access advisor features"
  | none => .forbidden "Please complete payment to access advisor features"

/-- Concrete stale account for the C10 witness: flag still true although the
subscription is canceled with an elapsed period. -/
def uC10 : User :=
  { role := "advisor"
    isPaymentVerified := true
    subscription := some
      { status := "canceled"
        currentPeriodStart := some 0
        currentPeriodEnd := some 10 } }

/-! ## Theorems -/

/-! ### Sorting facts -/

theorem insertLe_perm {α : Type} (le : α → α → Bool) (a : α) (l : List α) :
    (insertLe le a l).Perm (a :: l) := by
  induction l with
  | nil => simp [insertLe]
  | cons b l ih =>
    simp only [insertLe]
    by_cases h : le a b = true
    · simp [h]
    · simp only [h, if_false]
      exact (ih.cons b).trans (List.Perm.swap a b l)

theorem sortWith_perm {α : Type} (le : α → α → Bool) (l : List α) :
    (sortWith le l).Perm l := by
  induction l with
  | nil => simp [sortWith]
  | cons a l ih =>
    exact (insertLe_perm le a (sortWith le l)).trans (ih.cons a)

theorem mem_insertLe {α : Type} (le : α → α → Bool) (a x : α) (l : List α) :
    x ∈ insertLe le a l ↔ x = a ∨ x ∈ l := by
  rw [(insertLe_perm le a l).mem_iff, List.mem_cons]

theorem mem_sortWith {α : Type} (le : α → α → Bool) (x : α) (l : List α) :
    x ∈ sortWith le l ↔ x ∈ l :=
  (sortWith_perm le l).mem_iff

theorem pairwise_insertLe {α : Type} (le : α → α → Bool)
    (htot : ∀ a b, le a b = true ∨ le b a = true)
    (htrans : ∀ a b c, le a b = true → le b c = true → le a c = true)
    (a : α) (l : List α) (h : l.Pairwise (fun x y => le x y = true)) :
    (insertLe le a l).Pairwise (fun x y => le x y = true) := by
  induction l with
  | nil => simp [insertLe]
  | cons b l ih =>
    rw [List.pairwise_cons] at h
    simp only [insertLe]
    by_cases hab : le a b = true
    · simp only [hab, if_true]
      refine List.Pairwise.cons ?_ (List.Pairwise.cons h.1 h.2)
      intro c hc
      rcases List.mem_cons.mp hc with rfl | hc
      · exact hab
      · exact htrans a b c hab (h.1 c hc)
    · simp only [hab, if_false]
      refine List.Pairwise.cons ?_ (ih h.2)
      intro c hc
      rcases (mem_insertLe le a c l).mp hc with hca | hc
      · rw [hca]; exact (htot a b).resolve_left hab
      · exact h.1 c hc

theorem pairwise_sortWith {α : Type} (le : α → α → Bool)
    (htot : ∀ a b, le a b = true ∨ le b a = true)
    (htrans : ∀ a b c, le a b = true → le b c = true → le a c = true)
    (l : List α) :
    (sortWith le l).Pairwise (fun x y => le x y = true) := by
  induction l with
  | nil => simp [sortWith]
  | cons a l ih => exact pairwise_insertLe le htot htrans a (sortWith le l) ih

/-! ### applyBilling facts -/

theorem applyBilling_subscription (bill : Option Billing) (v : User) :
    (applyBilling bill v).subscription = v.subscription := by
  rcases bill with - | b
  · rfl
  · rcases hb : b.defaultPaymentMethodId.isSome <;>
      simp only [applyBilling, hb, Bool.false_eq_true, if_false, if_true]

theorem applyBilling_isPaymentVerified (bill : Option Billing) (v : User) :
    (applyBilling bill v).isPaymentVerified = v.isPaymentVerified := by
  rcases bill with - | b
  · rfl
  · rcases hb : b.defaultPaymentMethodId.isSome <;>
      simp only [applyBilling, hb, Bool.false_eq_true, if_false, if_true]

/-! ### C1 — markPaymentVerified coverage-window policy -/

/-- C1: `markPaymentVerified` always produces an active subscription with
`cancelAtPeriodEnd = false`; the new coverage window is
`[oldEnd, addYear oldEnd)` when the stored window is a valid ongoing cycle
(`start ≤ now < end`) and `[now, addYear now)` otherwise (no window,
half-present window, elapsed window, or anomalous future-only window); and a
repeat payment landing strictly inside a valid ongoing cycle never moves the
period end earlier (no shortening of remaining paid time), provided adding a
year never moves a timestamp backwards. -/
theorem markPaymentVerified_renewal_policy
    (addYear : Nat → Nat) (now : Nat) (u : User)
    (cust : Option String) (bill : Option Billing)
    (hy : ∀ t, t ≤ addYear t) :
    ∃ sub', (markPaymentVerified addYear now u cust bill).subscription = some sub' ∧
      sub'.status = "active" ∧
      sub'.cancelAtPeriodEnd = false ∧
      ((∃ s e, u.subscription.bind (·.currentPeriodStart) = some s ∧
               u.subscription.bind (·.currentPeriodEnd) = some e ∧
               s ≤ now ∧ now < e ∧
               sub'.currentPeriodStart = some e ∧
               sub'.currentPeriodEnd = some (addYear e)) ∨
       ((¬ ∃ s e, u.subscription.bind (·.currentPeriodStart) = some s ∧
                  u.subscription.bind (·.currentPeriodEnd) = some e ∧
                  s ≤ now ∧ now < e) ∧
        sub'.currentPeriodStart = some now ∧
        sub'.currentPeriodEnd = some (addYear now))) ∧
      (∀ s e, u.subscription.bind (·.currentPeriodStart) = some s →
        u.subscription.bind (·.currentPeriodEnd) = some e →
        s ≤ now → now < e →
        ∃ e', sub'.currentPeriodEnd = some e' ∧ e ≤ e') := by
  have hcb : (markPaymentVerified addYear now u cust bill).subscription =
      (markPaymentVerified addYear now u).subscription := by
    simp only [markPaymentVerified, applyBilling_subscription]
    cases cust <;> rfl
  rw [hcb]
  by_cases hvalid : ∃ s e, u.subscription.bind (·.currentPeriodStart) = some s ∧
      u.subscription.bind (·.currentPeriodEnd) = some e ∧ s ≤ now ∧ now < e
  · obtain ⟨s, e, hs, he, hsn, hne⟩ := hvalid
    refine ⟨{ status := "active", currentPeriodStart := some e,
              currentPeriodEnd := some (addYear e), cancelAtPeriodEnd := false },
            ?_, rfl, rfl, ?_, ?_⟩
    · have hb : (decide (s ≤ now) && decide (now < e)) = true := by
        simp [hsn, hne]
      simp [markPaymentVerified, applyBilling_subscription, hs, he, hb]
    · exact Or.inl ⟨s, e, hs, he, hsn, hne, rfl, rfl⟩
    · intro s' e' hs' he' _ _
      rw [he] at he'
      cases he'
      exact ⟨addYear e, rfl, hy e⟩
  · refine ⟨{ status := "active", currentPeriodStart := some now,
              currentPeriodEnd := some (addYear now), cancelAtPeriodEnd := false },
            ?_, rfl, rfl, ?_, ?_⟩
    · rcases hS : u.subscription.bind (·.currentPeriodStart) with _ | s <;>
        rcases hE : u.subscription.bind (·.currentPeriodEnd) with _ | e
      · simp [markPaymentVerified, applyBilling_subscription, hS, hE]
      · simp [markPaymentVerified, applyBilling_subscription, hS, hE]
      · simp [markPaymentVerified, applyBilling_subscription, hS, hE]
      · have hb : (decide (s ≤ now) && decide (now < e)) = false := by
          by_contra hcon
          rw [Bool.not_eq_false, Bool.and_eq_true, decide_eq_true_iff,
            decide_eq_true_iff] at hcon
          exact hvalid ⟨s, e, hS, hE, hcon.1, hcon.2⟩
        simp [markPaymentVerified, applyBilling_subscription, hS, hE, hb]
    · exact Or.inr ⟨hvalid, rfl, rfl⟩
    · intro s e hs he hsn hne
      exact absurd ⟨s, e, hs, he, hsn, hne⟩ hvalid

/-- Witness for C1: on the concrete account `uC1` (valid cycle `[0, 100)`,
`now = 50`, `addYear = (· + 365)`) the theorem applies and the resulting
subscription is active. -/
theorem markPaymentVerified_renewal_policy_witness :
    ((markPaymentVerified (· + 365) 50 uC1 none none).subscription.map (·.status))
      = some "active" := by
  obtain ⟨sub', hsub, hst, -⟩ :=
    markPaymentVerified_renewal_policy (· + 365) 50 uC1 none none
      (fun t => Nat.le_add_right t 365)
  rw [hsub]
  simp [hst]

/-! ### C3 — updateSubscriptionFromStripe merge and verification policy -/

theorem updateSubscriptionFromStripe_subscription_eq
    (now : Nat) (u : User) (d : SubscriptionUpdate) (bill : Option Billing) :
    (updateSubscriptionFromStripe now u d bill).subscription = some (mergedSub u d) := by
  rcases d with ⟨sid, st, dcps, dcpe, dcap, dcc⟩
  rcases dcps with - | ps <;> rcases dcpe with - | pe <;> rcases dcap with - | cap <;>
    rcases hc : (decide (st = "active") || decide (st = "trialing")) <;>
    simp [updateSubscriptionFromStripe, mergedSub, applyBilling_subscription, hc]

theorem updateSubscriptionFromStripe_verified_eq
    (now : Nat) (u : User) (d : SubscriptionUpdate) (bill : Option Billing) :
    (updateSubscriptionFromStripe now u d bill).isPaymentVerified =
      (match decide (d.status = "canceled"), d.currentPeriodEnd with
       | true, some e => decide (now < e)
       | _, _ => decide (d.status = "active") || decide (d.status = "trialing")) := by
  simp only [updateSubscriptionFromStripe, applyBilling_isPaymentVerified]

/-- Counterexample to C3 as stated: applying a canceled-status update with no
`currentPeriodEnd` of its own at `now = 0` to an account whose stored
`currentPeriodEnd = 100` is still in the future leaves the merged sub-document
with `currentPeriodEnd = 100 > now` and status `canceled`, yet the code sets
`isPaymentVerified` to `false` — the claim said it would be true exactly while
the subscription's `currentPeriodEnd` is later than `now`. -/
theorem updateSubscriptionFromStripe_claimC3_counterexample :
    (updateSubscriptionFromStripe 0 uC3 dC3).subscription.map (·.status)
        = some "canceled" ∧
    (updateSubscriptionFromStripe 0 uC3 dC3).subscription.bind (·.currentPeriodEnd)
        = some 100 ∧
    (0 : Nat) < 100 ∧
    (updateSubscriptionFromStripe 0 uC3 dC3).isPaymentVerified = false := by
  refine ⟨rfl, rfl, by decide, rfl⟩

/-- C3 (amended): `updateSubscriptionFromStripe` merges exactly the fields
present in the update into the stored sub-document, clears the bookkeeping
fields on `active`/`trialing`, and recomputes `isPaymentVerified` as: true if
the new status is `active` or `trialing`; if the new status is `canceled`,
true exactly when the update itself carries a `currentPeriodEnd` later than
`now` (a canceled update without its own `currentPeriodEnd` yields `false`
even if the stored end is still in the future); false for every other
status. -/
theorem updateSubscriptionFromStripe_spec
    (now : Nat) (u : User) (d : SubscriptionUpdate) (bill : Option Billing) :
    ∃ sub', (updateSubscriptionFromStripe now u d bill).subscription = some sub' ∧
      sub'.status = d.status ∧
      sub'.currentPeriodStart
        = (match d.currentPeriodStart with
           | some v => some v
           | none => (u.subscription.getD {}).currentPeriodStart) ∧
      sub'.currentPeriodEnd
        = (match d.currentPeriodEnd with
           | some v => some v
           | none => (u.subscription.getD {}).currentPeriodEnd) ∧
      sub'.cancelAtPeriodEnd
        = (match d.cancelAtPeriodEnd with
           | some b => b
           | none => (u.subscription.getD {}).cancelAtPeriodEnd) ∧
      ((d.status = "active" ∨ d.status = "trialing") →
        sub'.expiryNotifiedAt = none ∧ sub'.lastAutoRenewAttempt = none) ∧
      ((updateSubscriptionFromStripe now u d bill).isPaymentVerified = true ↔
        (d.status = "active" ∨ d.status = "trialing") ∨
        (d.status = "canceled" ∧ ∃ e, d.currentPeriodEnd = some e ∧ now < e)) := by
  refine ⟨mergedSub u d,
    updateSubscriptionFromStripe_subscription_eq now u d bill,
    rfl, rfl, rfl, rfl, ?_, ?_⟩
  · intro h
    have hc : (decide (d.status = "active") || decide (d.status = "trialing")) = true := by
      rcases h with h | h <;> simp [h]
    constructor <;> simp [mergedSub, hc]
  · rw [updateSubscriptionFromStripe_verified_eq now u d bill]
    rcases hde : d.currentPeriodEnd with - | e <;>
      rcases hdc : decide (d.status = "canceled") with - | -
    · have hne : ¬ d.status = "canceled" := by simpa using hdc
      simp [hne, hde]
    · have heq : d.status = "canceled" := by simpa using hdc
      simp [heq, hde]
    · have hne : ¬ d.status = "canceled" := by simpa using hdc
      simp [hne, hde]
    · have heq : d.status = "canceled" := by simpa using hdc
      simp [heq, hde]

/-- Witness for C3 (amended): an activation update on the concrete account
makes the account payment-verified. -/
theorem updateSubscriptionFromStripe_spec_witness :
    (updateSubscriptionFromStripe 5 uC3 dC3w none).isPaymentVerified = true := by
  obtain ⟨sub', -, -, -, -, -, -, hiff⟩ :=
    updateSubscriptionFromStripe_spec 5 uC3 dC3w none
  exact hiff.mpr (Or.inl (Or.inl rfl))

/-! ### C6 — resumeSubscription -/

/-- C6: `resumeSubscription` applied while the stored `currentPeriodEnd`
lies strictly in the future sets the status to active, clears
`cancelAtPeriodEnd`, removes `canceledAt` and restores `isPaymentVerified`;
when `currentPeriodEnd` is absent or not in the future it returns the user
completely unchanged (no error, no reactivation). -/
theorem resumeSubscription_spec (now : Nat) (u : User) :
    (∀ sub e, u.subscription = some sub → sub.currentPeriodEnd = some e → now < e →
      resumeSubscription now u =
        { u with
          subscription := some
            { sub with cancelAtPeriodEnd := false, status := "active", canceledAt := none }
          isPaymentVerified := true }) ∧
    (∀ e, (u.subscription.getD {}).currentPeriodEnd = some e → ¬ now < e →
      resumeSubscription now u = u) ∧
    ((u.subscription.getD {}).currentPeriodEnd = none → resumeSubscription now u = u) := by
  refine ⟨?_, ?_, ?_⟩
  · intro sub e hsub he hlt
    simp [resumeSubscription, hsub, he, hlt]
  · intro e he hge
    simp [resumeSubscription, he, hge]
  · intro he
    simp [resumeSubscription, he]

/-- Witness for C6: resuming the concrete canceled account `uC6` at `now = 50`
(period end 100) reactivates it. -/
theorem resumeSubscription_spec_witness :
    resumeSubscription 50 uC6 =
      { uC6 with
        subscription := some
          { status := "active"
            currentPeriodStart := some 0
            currentPeriodEnd := some 100
            cancelAtPeriodEnd := false
            canceledAt := none }
        isPaymentVerified := true } := by
  exact (resumeSubscription_spec 50 uC6).1
    { status := "canceled"
      currentPeriodStart := some 0
      currentPeriodEnd := some 100
      cancelAtPeriodEnd := true
      canceledAt := some 10 }
    100 rfl rfl (by decide)

/-! ### C2 — access invariant of the SubscriptionGuard -/

/-- C2: the guard judges a freshly loaded subscription active exactly when its
(lower-cased) status is `active` or `trialing` and `currentPeriodEnd` is
absent or in the future, or its status is `canceled` with a present
`currentPeriodEnd` in the future; an advisor request whose fresh subscription
passes this predicate is allowed with the refreshed subscription attached and
no renewal attempt; non-advisor principals always pass with no subscription
check (the decision does not depend on the fresh user or the renewal
outcome). -/
theorem subscriptionGuard_access_invariant :
    (∀ (now : Nat) (sub : Option Subscription),
      isSubscriptionActive now sub = true ↔
        ∃ s, sub = some s ∧
          (((toLowerStr s.status = "active" ∨ toLowerStr s.status = "trialing") ∧
            (s.currentPeriodEnd = none ∨ ∃ e, s.currentPeriodEnd = some e ∧ now < e)) ∨
           (toLowerStr s.status = "canceled" ∧
            ∃ e, s.currentPeriodEnd = some e ∧ now < e))) ∧
    (∀ (now : Nat) (ru : RequestUser) (fu : User) renew, ru.role = "advisor" →
      isSubscriptionActive now fu.subscription = true →
      subscriptionGuardCanActivate now (some ru) (some fu) renew
        = (.allow fu.subscription, 0)) ∧
    (∀ (now : Nat) (ru : RequestUser) fresh renew, ru.role ≠ "advisor" →
      subscriptionGuardCanActivate now (some ru) fresh renew = (.allow none, 0)) := by
  refine ⟨?_, ?_, ?_⟩
  · intro now sub
    rcases sub with - | s
    · simp [isSubscriptionActive]
    · simp only [isSubscriptionActive]
      by_cases hA : toLowerStr s.status = "active" <;>
        by_cases hT : toLowerStr s.status = "trialing" <;>
        by_cases hC : toLowerStr s.status = "canceled" <;>
        rcases hE : s.currentPeriodEnd with - | e <;>
        simp [hA, hT, hC, hE]
  · intro now ru fu renew hrole hact
    rcases fresh_eq : fu.subscription with - | s <;>
      simp [subscriptionGuardCanActivate, hrole, hact] <;> exact fresh_eq
  · intro now ru fresh renew hrole
    rcases fresh with - | fu <;> simp [subscriptionGuardCanActivate, hrole]

/-- Witness for C2: the concrete active advisor `uC2` at `now = 50` is allowed
with its refreshed subscription attached. -/
theorem subscriptionGuard_access_invariant_witness :
    subscriptionGuardCanActivate 50 (some { role := "advisor" }) (some uC2)
      (Except.error ()) = (.allow uC2.subscription, 0) :=
  subscriptionGuard_access_invariant.2.1 50 { role := "advisor" } uC2
    (Except.error ()) rfl (by decide)

/-! ### C5 — inline renewal policy of the SubscriptionGuard -/

/-- C5: the guard makes at most one inline renewal attempt per request;
an advisor request attempts a renewal exactly when the fresh subscription is
inactive, its status is not `canceled`, and a payment method is on file; an
error thrown by the attempt is swallowed (the guard still returns the
structured 402 rejection instead of propagating); and when the re-checked
subscription is still inactive the guard rejects with code
`SUBSCRIPTION_EXPIRED`, the `hasPaymentMethod` flag and the
`/advisor-payments` redirect target. -/
theorem subscriptionGuard_renewal_policy :
    (∀ (now : Nat) reqUser fresh renew,
      (subscriptionGuardCanActivate now reqUser fresh renew).2 ≤ 1) ∧
    (∀ (now : Nat) (ru : RequestUser) (fu : User) renew, ru.role = "advisor" →
      ((subscriptionGuardCanActivate now (some ru) (some fu) renew).2 = 1 ↔
        isSubscriptionActive now fu.subscription = false ∧
        subStatusLower fu.subscription ≠ "canceled" ∧
        hasPaymentMethod fu = true)) ∧
    (∀ (now : Nat) (ru : RequestUser) (fu : User), ru.role = "advisor" →
      isSubscriptionActive now fu.subscription = false →
      subStatusLower fu.subscription ≠ "canceled" →
      hasPaymentMethod fu = true →
      subscriptionGuardCanActivate now (some ru) (some fu) (Except.error ()) =
        (GuardDecision.paymentRequired 402
          "Subscription expired - payment failed. Please update your payment method."
          "SUBSCRIPTION_EXPIRED" true "/advisor-payments", 1)) ∧
    (∀ (now : Nat) (ru : RequestUser) (fu u' : User), ru.role = "advisor" →
      isSubscriptionActive now fu.subscription = false →
      subStatusLower fu.subscription ≠ "canceled" →
      hasPaymentMethod fu = true →
      isSubscriptionActive now u'.subscription = false →
      subscriptionGuardCanActivate now (some ru) (some fu) (Except.ok (some u')) =
        (GuardDecision.paymentRequired 402
          "Subscription expired - payment failed. Please update your payment method."
          "SUBSCRIPTION_EXPIRED" true "/advisor-payments", 1)) := by
  refine ⟨?_, ?_, ?_, ?_⟩
  · intro now reqUser fresh renew
    rcases reqUser with - | ru
    · simp [subscriptionGuardCanActivate]
    · by_cases hrole : ru.role = "advisor"
      · rcases fresh with - | fu
        · simp [subscriptionGuardCanActivate, hrole]
        · rcases renew with e | o
          · simp only [subscriptionGuardCanActivate, hrole]
            split_ifs <;> simp
          · rcases o with - | u' <;>
              · simp only [subscriptionGuardCanActivate, hrole]
                split_ifs <;> simp
      · simp [subscriptionGuardCanActivate, hrole]
  · intro now ru fu renew hrole
    by_cases hact : isSubscriptionActive now fu.subscription
    · simp [subscriptionGuardCanActivate, hrole, hact]
    · by_cases hsc : subStatusLower fu.subscription = "canceled"
      · simp [subscriptionGuardCanActivate, hrole, hact, hsc]
      · by_cases hpm : hasPaymentMethod fu
        · rcases renew with e | o
          · simp [subscriptionGuardCanActivate, hrole, hact, hsc, hpm]
          · rcases o with - | u'
            · simp [subscriptionGuardCanActivate, hrole, hact, hsc, hpm]
            · by_cases hact' : isSubscriptionActive now u'.subscription <;>
                simp [subscriptionGuardCanActivate, hrole, hact, hsc, hpm, hact']
        · simp [subscriptionGuardCanActivate, hrole, hact, hsc, hpm]
  · intro now ru fu hrole hact hsc hpm
    simp [subscriptionGuardCanActivate, hrole, hact, hsc, hpm]
  · intro now ru fu u' hrole hact hsc hpm hact'
    simp [subscriptionGuardCanActivate, hrole, hact, hsc, hpm, hact']

/-- Witness for C5: on the concrete expired advisor `uC5` at `now = 50` an
erroring renewal attempt is swallowed and the guard returns the structured
402 rejection after exactly one attempt. -/
theorem subscriptionGuard_renewal_policy_witness :
    subscriptionGuardCanActivate 50 (some { role := "advisor" }) (some uC5)
      (Except.error ()) =
      (GuardDecision.paymentRequired 402
        "Subscription expired - payment failed. Please update your payment method."
        "SUBSCRIPTION_EXPIRED" true "/advisor-payments", 1) :=
  subscriptionGuard_renewal_policy.2.2.1 50 { role := "advisor" } uC5 rfl
    (by decide) (by decide) (by decide)

/-! ### C4 — webhook replay -/

/-- C4: delivering the same `invoice.payment_succeeded` event twice records
exactly one payment-history row for the payment identifier (the
check-before-insert dedup works), but the coupon's `usedCount` is incremented
on every delivery — after the replay it is 2, not 1, because
`incrementCouponUsage` is called unconditionally with no idempotency
pre-check. This evaluates the code at the failing input of the C4 claim. -/
theorem invoicePaymentSucceeded_replay :
    ((handleInvoicePaymentSucceeded 10
        (handleInvoicePaymentSucceeded 10 stC4 (some "u1") (some subC4))
        (some "u1") (some subC4)).history.filter
      (fun r => r.paymentId = "pi_1")).length = 1 ∧
    (handleInvoicePaymentSucceeded 10 stC4 (some "u1") (some subC4)).coupons
      = [("SAVE10", 1)] ∧
    (handleInvoicePaymentSucceeded 10
        (handleInvoicePaymentSucceeded 10 stC4 (some "u1") (some subC4))
        (some "u1") (some subC4)).coupons
      = [("SAVE10", 2)] := by
  refine ⟨rfl, rfl, rfl⟩

/-! ### C7 — hourly renewal sweeper -/

/-- C7: the sweeper's selection query matches exactly the advisor accounts
with an elapsed period (`currentPeriodEnd < now`), status `active` or
`past_due`, and a payment method on file; one run attempts renewal once per
selected account and maps a failed attempt to `setExpired`; `setExpired`
stamps the subscription status `expired`; and an account whose status is
`expired` is never selected by any later run (until some other operation
changes the status). -/
theorem sweeper_renewal_policy :
    (∀ (now : Nat) (u : User),
      dueForAutoRenewal now u = true ↔
        (u.role = "advisor" ∧
         (∃ s e, u.subscription = some s ∧ s.currentPeriodEnd = some e ∧ e < now ∧
           (s.status = "active" ∨ s.status = "past_due")) ∧
         hasPaymentMethod u = true)) ∧
    (∀ (now : Nat) (renew : User → Option User) (users : List User),
      (sweepExpiredSubscriptions now renew users).1 =
        users.map (fun u =>
          if dueForAutoRenewal now u then
            match renew u with
            | some u' => u'
            | none => setExpired u
          else u) ∧
      (sweepExpiredSubscriptions now renew users).2 =
        (users.filter (dueForAutoRenewal now)).length) ∧
    (∀ u : User, (setExpired u).subscription.map (·.status) = some "expired") ∧
    (∀ (t : Nat) (u : User), dueForAutoRenewal t (setExpired u) = false) := by
  refine ⟨?_, fun _ _ _ => ⟨rfl, rfl⟩, fun u => rfl, ?_⟩
  · intro now u
    rcases hs : u.subscription with - | s
    · simp [dueForAutoRenewal, hs]
    · rcases he : s.currentPeriodEnd with - | e
      · simp [dueForAutoRenewal, hs, he]
      · simp [dueForAutoRenewal, hs, he, and_assoc]
  · intro t u
    simp [dueForAutoRenewal, setExpired]

/-- Witness for C7: the concrete overdue account `uC7` is selected at
`now = 50`, and after the failure path stamps it `expired` it is no longer
selected at a later time. -/
theorem sweeper_renewal_policy_witness :
    dueForAutoRenewal 50 uC7 = true ∧ dueForAutoRenewal 99 (setExpired uC7) = false :=
  ⟨(sweeper_renewal_policy.1 50 uC7).mpr
      ⟨rfl,
        ⟨{ status := "past_due", currentPeriodStart := some 0, currentPeriodEnd := some 40 },
          40, rfl, rfl, by decide, Or.inr rfl⟩,
        rfl⟩,
    sweeper_renewal_policy.2.2.2 99 uC7⟩

/-! ### String-order facts -/

theorem charsLe_cons_iff (a b : Char) (as bs : List Char) :
    charsLe (a :: as) (b :: bs) = true ↔
      a.toNat < b.toNat ∨
        (¬ a.toNat < b.toNat ∧ ¬ b.toNat < a.toNat ∧ charsLe as bs = true) := by
  simp only [charsLe]
  by_cases h1 : a.toNat < b.toNat
  · simp [h1]
  · by_cases h2 : b.toNat < a.toNat <;> simp [h1, h2]

theorem charsLe_total : ∀ x y : List Char, charsLe x y = true ∨ charsLe y x = true := by
  intro x
  induction x with
  | nil => intro y; left; rfl
  | cons a as ih =>
    intro y
    cases y with
    | nil => right; rfl
    | cons b bs =>
      rw [charsLe_cons_iff, charsLe_cons_iff]
      by_cases h1 : a.toNat < b.toNat
      · left; exact Or.inl h1
      · by_cases h2 : b.toNat < a.toNat
        · right; exact Or.inl h2
        · rcases ih bs with h | h
          · exact Or.inl (Or.inr ⟨h1, h2, h⟩)
          · exact Or.inr (Or.inr ⟨h2, h1, h⟩)

theorem charsLe_trans :
    ∀ x y z : List Char, charsLe x y = true → charsLe y z = true → charsLe x z = true := by
  intro x
  induction x with
  | nil => intro y z _ _; rfl
  | cons a as ih =>
    intro y z hxy hyz
    cases y with
    | nil => simp [charsLe] at hxy
    | cons b bs =>
      cases z with
      | nil => simp [charsLe] at hyz
      | cons c cs =>
        rw [charsLe_cons_iff] at hxy hyz ⊢
        rcases hxy with h | ⟨h1, h2, hrec⟩ <;> rcases hyz with h' | ⟨h1', h2', hrec'⟩
        · left; omega
        · left; omega
        · left; omega
        · right; exact ⟨by omega, by omega, ih bs cs hrec hrec'⟩

/-! ### Comparator facts for the matching sort -/

theorem advisorLe_total (sortBy : Option String) :
    ∀ a b : Advisor, advisorLe sortBy a b = true ∨ advisorLe sortBy b a = true := by
  intro a b
  by_cases hf : a.workedWithCimamplify = b.workedWithCimamplify
  · simp only [advisorLe]
    rw [hf, if_pos rfl, if_pos rfl]
    by_cases hy : sortBy = some "years"
    · rcases Nat.le_total a.yearsExperience b.yearsExperience with h | h <;>
        simp [hy, h]
    · by_cases hc : sortBy = some "company"
      · rcases charsLe_total a.companyName.data b.companyName.data with h | h <;>
          simp [hy, hc, strLe, h]
      · rcases Nat.le_total a.createdAt b.createdAt with h | h <;>
          simp [hy, hc, h]
  · have hf' : ¬ b.workedWithCimamplify = a.workedWithCimamplify := fun h => hf h.symm
    simp only [advisorLe, hf, hf', if_false]
    rcases ha : a.workedWithCimamplify
    · rcases hb : b.workedWithCimamplify
      · exact absurd (ha.trans hb.symm) hf
      · exact Or.inr rfl
    · exact Or.inl rfl

theorem advisorLe_trans (sortBy : Option String) :
    ∀ a b c : Advisor, advisorLe sortBy a b = true → advisorLe sortBy b c = true →
      advisorLe sortBy a c = true := by
  intro a b c hab hbc
  by_cases hfab : a.workedWithCimamplify = b.workedWithCimamplify <;>
    by_cases hfbc : b.workedWithCimamplify = c.workedWithCimamplify
  · have hfac : a.workedWithCimamplify = c.workedWithCimamplify := hfab.trans hfbc
    simp only [advisorLe, hfab, hfbc, hfac, if_true] at hab hbc ⊢
    by_cases hy : sortBy = some "years"
    · simp only [hy, if_true, decide_eq_true_iff] at hab hbc ⊢
      omega
    · by_cases hc : sortBy = some "company"
      · simp only [hy, hc, if_false, if_true] at hab hbc ⊢
        exact charsLe_trans _ _ _ hab hbc
      · simp only [hy, hc, if_false, decide_eq_true_iff] at hab hbc ⊢
        omega
  · have hfac : ¬ a.workedWithCimamplify = c.workedWithCimamplify := by
      rw [hfab]; exact hfbc
    simp only [advisorLe, hfbc, hfac, if_false] at hbc ⊢
    exact hfab.trans hbc
  · have hfac : ¬ a.workedWithCimamplify = c.workedWithCimamplify := by
      intro h; exact hfab (h.trans hfbc.symm)
    simp only [advisorLe, hfab, hfac, if_false] at hab ⊢
    exact hab
  · simp only [advisorLe, hfab, hfbc, if_false] at hab hbc
    exact absurd (hab.trans hbc.symm) hfab

theorem claimC9Order_of_advisorLe (sortBy : Option String) (a b : Advisor) :
    advisorLe sortBy a b = true → claimC9Order sortBy a b := by
  intro h
  by_cases hf : a.workedWithCimamplify = b.workedWithCimamplify
  · simp only [advisorLe, hf, if_true] at h
    simp only [claimC9Order, hf, if_true]
    by_cases hy : sortBy = some "years"
    · simp only [hy, if_true, decide_eq_true_iff] at h ⊢; exact h
    · by_cases hc : sortBy = some "company"
      · simp only [hy, hc, if_false, if_true] at h ⊢; exact h
      · simp only [hy, hc, if_false, decide_eq_true_iff] at h ⊢; exact h
  · simp only [advisorLe, hf, if_false] at h
    simp only [claimC9Order, hf, if_false]
    refine ⟨h, ?_⟩
    rcases hb : b.workedWithCimamplify
    · rfl
    · exact absurd (h.trans hb.symm) hf

/-! ### Filter characterisation for the matching engine -/

theorem matchesSeller_eq_true_iff (s : SellerProfile) (a : Advisor) :
    matchesSeller s a = true ↔
      (a.isActive = true ∧ a.sendLeads = true ∧
       (match s.industry with
        | some ind =>
          if ind = "" then a.industries ≠ []
          else ∃ entry ∈ a.industries, eqCI ind entry = true
        | none => a.industries ≠ []) ∧
       (geographyVariants s.geography = [] ∨
        ∃ entry ∈ a.geographies, ∃ v ∈ geographyVariants s.geography,
          eqCI v entry = true) ∧
       (a.revenueMin = none ∨ ∃ m, a.revenueMin = some m ∧ m ≤ s.annualRevenue) ∧
       (a.revenueMax = none ∨ ∃ M, a.revenueMax = some M ∧ s.annualRevenue ≤ M)) := by
  have hind : industryMatches s.industry a = true ↔
      (match s.industry with
       | some ind =>
         if ind = "" then a.industries ≠ []
         else ∃ entry ∈ a.industries, eqCI ind entry = true
       | none => a.industries ≠ []) := by
    rcases hsi : s.industry with - | ind
    · simp only [industryMatches, List.any_eq_true]
      cases a.industries <;> simp
    · simp only [industryMatches]
      by_cases hend : ind = ""
      · simp only [hend, if_true, List.any_eq_true]
        cases a.industries <;> simp
      · simp [hend, List.any_eq_true]
  have hgeo : geographyMatches s.geography a = true ↔
      (geographyVariants s.geography = [] ∨
       ∃ entry ∈ a.geographies, ∃ v ∈ geographyVariants s.geography,
         eqCI v entry = true) := by
    rcases hv : geographyVariants s.geography with - | ⟨v, vs⟩
    · simp [geographyMatches, hv]
    · simp [geographyMatches, hv, List.any_eq_true]
  have hrev : revenueMatches s.annualRevenue a = true ↔
      ((a.revenueMin = none ∨ ∃ m, a.revenueMin = some m ∧ m ≤ s.annualRevenue) ∧
       (a.revenueMax = none ∨ ∃ M, a.revenueMax = some M ∧ s.annualRevenue ≤ M)) := by
    rcases hmin : a.revenueMin with - | m <;> rcases hmax : a.revenueMax with - | M <;>
      simp [revenueMatches, hmin, hmax]
  simp only [matchesSeller, Bool.and_eq_true, hind, hgeo, hrev, and_assoc]

/-! ### C8 — matching membership -/

/-- Counterexample to C8 as stated: a seller with no industry on file and an
advisor matching on every other attribute but with an empty `industries`
array. The claim's predicate (missing industry matches any value) accepts the
advisor, but the code's wildcard industry regex still requires at least one
array element, so `findMatches` excludes the advisor. -/
theorem findMatches_claimC8_counterexample :
    claimC8Matches sellerC8 advisorC8 = true ∧
    advisorC8.isActive = true ∧ advisorC8.sendLeads = true ∧
    geographyMatches sellerC8.geography advisorC8 = true ∧
    revenueMatches sellerC8.annualRevenue advisorC8 = true ∧
    advisorC8 ∉ findMatches sellerC8 [advisorC8] none := by
  refine ⟨rfl, rfl, rfl, by decide, rfl, by decide⟩

/-- C8 (amended): an advisor appears in `findMatches` exactly when it is in
the advisor collection, is active and lead-accepting, the seller's industry
case-insensitively equals some industries entry (a missing or empty seller
industry instead requires only a non-empty industries array), the geography
condition holds (some geographies entry case-insensitively equals one of the
seller's geography variants — the geography itself or its top-level segment —
with no constraint at all when the seller has no geography), and the revenue
bounds that are present are satisfied. -/
theorem findMatches_membership_spec (s : SellerProfile) (a : Advisor)
    (advisors : List Advisor) (sortBy : Option String) :
    a ∈ findMatches s advisors sortBy ↔
      (a ∈ advisors ∧
       (a.isActive = true ∧ a.sendLeads = true ∧
        (match s.industry with
         | some ind =>
           if ind = "" then a.industries ≠ []
           else ∃ entry ∈ a.industries, eqCI ind entry = true
         | none => a.industries ≠ []) ∧
        (geographyVariants s.geography = [] ∨
         ∃ entry ∈ a.geographies, ∃ v ∈ geographyVariants s.geography,
           eqCI v entry = true) ∧
        (a.revenueMin = none ∨ ∃ m, a.revenueMin = some m ∧ m ≤ s.annualRevenue) ∧
        (a.revenueMax = none ∨ ∃ M, a.revenueMax = some M ∧ s.annualRevenue ≤ M))) := by
  rw [findMatches, mem_sortWith, List.mem_filter]
  exact and_congr Iff.rfl (matchesSeller_eq_true_iff s a)

/-- Witness for C8 (amended): the partner advisor of the spec example is a
member of the concrete match set. -/
theorem findMatches_membership_spec_witness :
    advisorB ∈ findMatches sellerC9 [advisorA, advisorB] none :=
  (findMatches_membership_spec sellerC9 advisorB [advisorA, advisorB] none).mpr
    ⟨by decide, rfl, rfl,
      ⟨"Technology", by decide, by decide⟩,
      Or.inr ⟨"North America", by decide, "North America", by decide, by decide⟩,
      Or.inr ⟨0, rfl, by decide⟩,
      Or.inr ⟨20000000, rfl, by decide⟩⟩

/-! ### C9 — matching order -/

/-- C9: for every seller, advisor collection and `sortBy`, the match list is
pairwise ordered by the claim's order (partner flag descending first, then
the secondary key for `sortBy`) and is a permutation of the filtered
advisors; and on the spec's two-advisor example the result is exactly
`[advisorB, advisorA]`. -/
theorem findMatches_sort_order :
    (∀ (s : SellerProfile) (advisors : List Advisor) (sortBy : Option String),
      (findMatches s advisors sortBy).Pairwise (claimC9Order sortBy) ∧
      (findMatches s advisors sortBy).Perm (advisors.filter (matchesSeller s))) ∧
    findMatches sellerC9 [advisorA, advisorB] none = [advisorB, advisorA] := by
  refine ⟨fun s advisors sortBy => ⟨?_, sortWith_perm _ _⟩, by decide⟩
  exact (pairwise_sortWith _ (advisorLe_total sortBy) (advisorLe_trans sortBy) _).imp
    (fun h => claimC9Order_of_advisorLe sortBy _ _ h)

/-! ### C10 — PaymentVerifiedGuard -/

/-- C10: the payment-verified guard allows exactly when a request user exists
with `isPaymentVerified = true`; its decision depends only on that flag (in
particular it never consults the subscription), every verified user passes,
and any other request gets the Forbidden message. -/
theorem paymentVerifiedGuard_spec :
    (∀ r : Option User, paymentVerifiedGuard r = .allow ↔
      ∃ u, r = some u ∧ u.isPaymentVerified = true) ∧
    (∀ u v : User, u.isPaymentVerified = v.isPaymentVerified →
      paymentVerifiedGuard (some u) = paymentVerifiedGuard (some v)) ∧
    (∀ u : User, u.isPaymentVerified = true → paymentVerifiedGuard (some u) = .allow) ∧
    (∀ r : Option User, paymentVerifiedGuard r = .allow ∨
      paymentVerifiedGuard r =
        .forbidden "Please complete payment to access advisor features") := by
  refine ⟨?_, ?_, ?_, ?_⟩
  · intro r
    rcases r with - | u
    · simp [paymentVerifiedGuard]
    · rcases hv : u.isPaymentVerified <;> simp [paymentVerifiedGuard, hv]
  · intro u v h
    rcases hv : u.isPaymentVerified <;>
      simp [paymentVerifiedGuard, hv, ← h]
  · intro u h
    simp [paymentVerifiedGuard, h]
  · intro r
    rcases r with - | u
    · right; rfl
    · rcases hv : u.isPaymentVerified <;> simp [paymentVerifiedGuard, hv]

/-- Witness for C10: the stale account `uC10` (flag true, canceled and
elapsed subscription at `now = 50`) still passes the guard. -/
theorem paymentVerifiedGuard_spec_witness :
    paymentVerifiedGuard (some uC10) = .allow ∧
    isSubscriptionActive 50 uC10.subscription = false :=
  ⟨paymentVerifiedGuard_spec.2.2.1 uC10 rfl, by decide⟩

end AdvisorSeller
